import Mathlib

/-!
Verification of the World Simulation Core of the 3d_world_builder
repository. The definitions below are shallow embeddings of the state and
operations of LightingVisualizer (src/src/postprocessing.d.ts) and
NatureScene (the unnamed source file): the simulation clock advanced by
animate, the time-of-day derivation updateTimeOfDay, the rain particle
update updateRain, and the light/object registries with their
add/remove operations. Real-number quantities are modelled as rationals.
-/

/-- State of the simulation clock owned by LightingVisualizer:
fields time, timeSpeed and isPlaying of the class. -/
structure ClockState where
  time : ℚ
  timeSpeed : ℚ
  isPlaying : Bool
deriving DecidableEq

/-- Embeds the clock-advance block of LightingVisualizer.animate:
if timeSpeed is positive the code runs time += timeSpeed * 0.01 and then
resets time to 0 whenever time >= 24. -/
def animateClock (s : ClockState) : ClockState :=
  if 0 < s.timeSpeed then
    let t := s.time + s.timeSpeed * (1 / 100)
    { s with time := if 24 ≤ t then 0 else t }
  else s

/-- One frame of the animation loop as seen from the tick interface.
requestAnimationFrame hands the callback a timestamp, but animate()
declares no parameter and never reads any elapsed-time value, so the
frame step is a constant function of dt. -/
def animateFrame (dt : ℚ) (s : ClockState) : ClockState :=
  animateClock s

/-- Embeds the Play/Pause onChange handler of setupGUI:
isPlaying := value and timeSpeed := value ? 1 : 0. -/
def setPlay (s : ClockState) (v : Bool) : ClockState :=
  { s with isPlaying := v, timeSpeed := if v then 1 else 0 }

/-- A sequence of frames, each preceded by the user choosing a speed on
the Time Speed slider (the slider onChange writes timeSpeed directly). -/
def runClock (speeds : List ℚ) (s : ClockState) : ClockState :=
  speeds.foldl (fun st sp => animateClock { st with timeSpeed := sp }) s

/-- The day predicate of updateTimeOfDay: hour >= 6 && hour < 18. -/
def isDayAt (h : ℚ) : Prop := 6 ≤ h ∧ h < 18

instance (h : ℚ) : Decidable (isDayAt h) := by
  unfold isDayAt
  infer_instance

/-- Embeds the star-opacity computation of updateTimeOfDay before the
final scaling: opacity starts at 0, and only when it is not day it is
set to (hour-18)/2 on [18,20), to 1-(hour-4)/2 on [4,6), and to 1
otherwise. -/
def starOpacityFrac (h : ℚ) : ℚ :=
  if isDayAt h then 0
  else if 18 ≤ h ∧ h < 20 then (h - 18) / 2
  else if 4 ≤ h ∧ h < 6 then 1 - (h - 4) / 2
  else 1

/-- The value written to the star material by updateTimeOfDay:
opacity * 1.2. -/
def starOpacity (h : ℚ) : ℚ :=
  starOpacityFrac h * (12 / 10)

/-- Embeds the sun-light intensity computation of updateTimeOfDay.
By day: max(0, 5 - (|hour - 12| / 6) * 4). By night the code computes
distanceFromMidnight = |hour - 0| on the raw hour and takes
max(0, 1 - distanceFromMidnight / 6). -/
def sunIntensity (h : ℚ) : ℚ :=
  if isDayAt h then max 0 (5 - (|h - 12| / 6) * 4)
  else max 0 (1 - |h - 0| / 6)

/-- An HSL colour triple as passed to THREE.Color.setHSL. -/
structure HSL where
  hue : ℚ
  sat : ℚ
  lightness : ℚ
deriving DecidableEq

/-- Embeds the sky-colour computation of updateTimeOfDay. By day the sky
is HSL(0.6, 0.9, 0.7). Otherwise, on [4,6) the sunrise branch gives
HSL(0.6, 0.9, 0.05 + sunriseProgress * 0.65); in the remaining night
branch nightProgress = clamp((hour - 18) / 2, 0, 1) and the sky is
HSL(0.6, 0.8, 0.05 + nightProgress * 0.05). -/
def skyHSL (h : ℚ) : HSL :=
  if isDayAt h then ⟨6 / 10, 9 / 10, 7 / 10⟩
  else if 4 ≤ h ∧ h < 6 then ⟨6 / 10, 9 / 10, 5 / 100 + ((h - 4) / 2) * (65 / 100)⟩
  else ⟨6 / 10, 8 / 10, 5 / 100 + (min 1 (max 0 ((h - 18) / 2))) * (5 / 100)⟩

/-- One rain particle of the buffer built by createRain: a position and
the per-particle fall velocity stored in the velocity attribute. -/
structure RainParticle where
  x : ℚ
  y : ℚ
  z : ℚ
  vel : ℚ
deriving DecidableEq

/-- Embeds the per-particle body of updateRain. The code first runs
y -= velocity * rainIntensity and then, if y < 0, resets y to 100 and
redraws x and z as (random - 0.5) * 200. The two random draws are
passed in explicitly as rx and rz, each in [0,1). -/
def updateRainParticle (intensity rx rz : ℚ) (p : RainParticle) : RainParticle :=
  let y2 := p.y - p.vel * intensity
  if y2 < 0 then ⟨(rx - 1 / 2) * 200, 100, (rz - 1 / 2) * 200, p.vel⟩
  else ⟨p.x, y2, p.z, p.vel⟩

/-- Embeds one tick of updateRain over the whole buffer: the method
returns immediately unless rain is enabled, and otherwise updates every
particle in place. The stream of random draws is passed as a list
zipped with the particle list. -/
def updateRain (raining : Bool) (intensity : ℚ) (rs : List (ℚ × ℚ))
    (ps : List RainParticle) : List RainParticle :=
  if raining then
    (ps.zip rs).map (fun pr => updateRainParticle intensity pr.2.1 pr.2.2 pr.1)
  else ps

/-- The display name built by addLight:
type ++ " Light " ++ (lightSources.length + 1) ++ " (edit or remove)". -/
def lightName (kind : String) (n : Nat) : String :=
  kind ++ " Light " ++ toString n ++ " (edit or remove)"

/-- One entry of the lightSources registry of LightingVisualizer. The
THREE light object, its helper and its dat.GUI folder are identified by
the numeric handles allocated at creation. -/
structure LightSource where
  name : String
  lightId : Nat
  helperId : Nat
  folderId : Nat
  kind : String
deriving DecidableEq

/-- The registry-relevant state of LightingVisualizer: the handles
currently attached to the scene, the folders of the GUI, the
lightSources array, and a fresh-handle counter standing for allocation
of new THREE objects. -/
structure VizState where
  sceneIds : List Nat
  guiFolders : List Nat
  lightSources : List LightSource
  nextId : Nat
deriving DecidableEq

/-- The visualizer state with no lights yet. -/
def lightInit : VizState := ⟨[], [], [], 0⟩

/-- Embeds LightingVisualizer.addLight. For the three known kinds the
method builds the name from lightSources.length + 1, creates the light
and its helper (fresh objects, modelled by fresh handles), adds both to
the scene, adds a folder to the GUI, and pushes the entry; any other
kind returns without effect. -/
def addLight (s : VizState) (kind : String) : VizState :=
  if kind = "Directional" ∨ kind = "Point" ∨ kind = "Spot" then
    let name := lightName kind (s.lightSources.length + 1)
    let lightId := s.nextId
    let helperId := s.nextId + 1
    let folderId := s.nextId + 2
    { sceneIds := s.sceneIds ++ [lightId, helperId]
      guiFolders := s.guiFolders ++ [folderId]
      lightSources := s.lightSources ++ [⟨name, lightId, helperId, folderId, kind⟩]
      nextId := s.nextId + 3 }
  else s

/-- Embeds LightingVisualizer.removeLight. The method finds the first
entry whose name matches, removes its light and helper from the scene
and its folder from the GUI, and then filters the registry by name,
dropping every entry that carries the matching name. -/
def removeLight (s : VizState) (name : String) : VizState :=
  match s.lightSources.find? (fun src => src.name == name) with
  | some src =>
      { sceneIds := (s.sceneIds.erase src.lightId).erase src.helperId
        guiFolders := s.guiFolders.erase src.folderId
        lightSources := s.lightSources.filter (fun other => other.name != name)
        nextId := s.nextId }
  | none => s

/-- The registry-relevant state for user-created objects: mesh handles
in the scene, the objects array, and the GUI folders together with
their display titles. -/
structure ObjectsState where
  scene : List Nat
  objects : List Nat
  folders : List (Nat × String)
  nextId : Nat
deriving DecidableEq

/-- The display title built by addObject:
type ++ " " ++ (objects.length + 1) ++ " (edit or remove)". -/
def objectName (kind : String) (n : Nat) : String :=
  kind ++ " " ++ toString n ++ " (edit or remove)"

/-- Embeds LightingVisualizer.addObject for the five known shape kinds:
a fresh mesh is added to the scene and pushed onto objects, and a GUI
folder titled from objects.length + 1 is created. Unknown kinds return
without effect. -/
def addObject (s : ObjectsState) (kind : String) : ObjectsState :=
  if kind = "Sphere" ∨ kind = "Cube" ∨ kind = "Torus" ∨ kind = "Cylinder" ∨ kind = "Cone" then
    let meshId := s.nextId
    let folderId := s.nextId + 1
    { scene := s.scene ++ [meshId]
      objects := s.objects ++ [meshId]
      folders := s.folders ++ [(folderId, objectName kind (s.objects.length + 1))]
      nextId := s.nextId + 2 }
  else s

/-- Embeds LightingVisualizer.deleteObject. The delete closure built in
addObject captures the mesh and the folder themselves, so removal is by
those references: scene.remove(mesh), objects.filter(obj !== mesh), and
gui.removeFolder(folder). Display names are never consulted. -/
def deleteObject (s : ObjectsState) (mesh : Nat) (folder : Nat × String) : ObjectsState :=
  { scene := s.scene.erase mesh
    objects := s.objects.filter (fun m => m != mesh)
    folders := s.folders.erase folder
    nextId := s.nextId }

/-- Helper: one frame keeps the hour inside [0,24). -/
theorem animateClock_range (s : ClockState) (h0 : 0 ≤ s.time) (h1 : s.time < 24) :
    0 ≤ (animateClock s).time ∧ (animateClock s).time < 24 := by
  unfold animateClock
  split_ifs with hsp
  · simp only
    split_ifs with hcross
    · norm_num
    · have hpos : 0 < s.timeSpeed * (1 / 100) := by positivity
      exact ⟨by linarith, not_le.mp hcross⟩
  · exact ⟨h0, h1⟩

/-- Helper: running a concatenation of speed sequences composes. -/
theorem runClock_append (a b : List ℚ) (s : ClockState) :
    runClock (a ++ b) s = runClock b (runClock a s) := by
  simp [runClock, List.foldl_append]

/-- Helper: unfolding one step of a speed sequence. -/
theorem runClock_cons (sp : ℚ) (l : List ℚ) (s : ClockState) :
    runClock (sp :: l) s = runClock l (animateClock { s with timeSpeed := sp }) := by
  simp [runClock]

/-- Helper: n frames at speed 1 that never reach 24 advance the hour by
exactly n/100. -/
theorem runClock_replicate_one_time (n : ℕ) (s : ClockState)
    (hn : s.time + n * (1 / 100) < 24) :
    (runClock (List.replicate n 1) s).time = s.time + n * (1 / 100) := by
  induction n generalizing s with
  | zero => simp [runClock]
  | succ k ih =>
      have hk : (0:ℚ) ≤ (k : ℚ) := Nat.cast_nonneg k
      have hnc : s.time + 1 / 100 < 24 := by push_cast at hn; nlinarith
      have hstep : animateClock { s with timeSpeed := 1 } =
          ⟨s.time + 1 / 100, 1, s.isPlaying⟩ := by
        norm_num [animateClock]
        intro h
        linarith
      have hbound : (⟨s.time + 1 / 100, 1, s.isPlaying⟩ : ClockState).time
          + (k : ℚ) * (1 / 100) < 24 := by
        simp only
        push_cast at hn
        linarith
      have hrec := ih ⟨s.time + 1 / 100, 1, s.isPlaying⟩ hbound
      rw [List.replicate_succ, runClock_cons, hstep, hrec]
      push_cast
      ring

/-- Helper: the worked example of the spec. Starting at hour 23.5,
100 frames at speed 1 advance the clock by a total of 1.0 hour and land
on hour 0.5: the 50th frame hits exactly 24 and resets to 0. -/
theorem clock_example_half :
    (runClock (List.replicate 100 1) ⟨47/2, 1, true⟩).time = 1/2 := by
  have h51 : List.replicate (50 + 1) (1:ℚ) = 1 :: List.replicate 50 1 :=
    List.replicate_succ 1 50
  have hsplit : List.replicate (100:ℕ) (1:ℚ) =
      List.replicate 49 1 ++ (1 :: List.replicate 50 1) := by
    rw [show (100:ℕ) = 49 + (50 + 1) by norm_num, List.replicate_add, h51]
  have h49 : (runClock (List.replicate 49 1) ⟨47/2, 1, true⟩).time = 2399/100 := by
    rw [runClock_replicate_one_time 49 ⟨47/2, 1, true⟩ (by norm_num)]
    norm_num
  rw [hsplit, runClock_append, runClock_cons]
  set s49 := runClock (List.replicate 49 1) ⟨47/2, 1, true⟩ with hs49
  have hcross : animateClock { s49 with timeSpeed := 1 } =
      ⟨0, 1, s49.isPlaying⟩ := by
    norm_num [animateClock, h49]
  rw [hcross, runClock_replicate_one_time 50 _ (by norm_num)]
  norm_num

/-- C1: the create-then-remove round trip fails on a reachable registry
state. After addLight Point, addLight Point, removeLight of the first
name, the registry holds one light named Point Light 2 and the scene
holds its light 3 and helper 4. A further addLight Point generates
exactly the same name for the new entry (light 6, helper 7), and
removeLight of that name then empties the registry (it filters out both
same-named entries) while the new light and helper stay in the scene:
the light count goes 1 to 0 instead of returning to 1, and the removal
is partial, leaving a live unregistered light. -/
theorem addRemoveLight_not_roundtrip :
    (removeLight (addLight (addLight lightInit "Point") "Point")
      (lightName "Point" 1)).lightSources.length = 1
    ∧ (removeLight (addLight (addLight lightInit "Point") "Point")
      (lightName "Point" 1)).sceneIds = [3, 4]
    ∧ ((addLight (removeLight (addLight (addLight lightInit "Point") "Point")
      (lightName "Point" 1)) "Point").lightSources.map LightSource.name).getLast?
        = some (lightName "Point" 2)
    ∧ ((addLight (removeLight (addLight (addLight lightInit "Point") "Point")
      (lightName "Point" 1)) "Point").lightSources.map LightSource.lightId).getLast?
        = some 6
    ∧ (removeLight (addLight (removeLight (addLight (addLight lightInit "Point") "Point")
      (lightName "Point" 1)) "Point") (lightName "Point" 2)).lightSources = []
    ∧ (removeLight (addLight (removeLight (addLight (addLight lightInit "Point") "Point")
      (lightName "Point" 1)) "Point") (lightName "Point" 2)).sceneIds = [6, 7] := by
  decide

/-- C2: id generation collides with a live entry. After
addLight Point, addLight Point, removeLight of the first name, a fourth
addLight Point builds its name from lightSources.length + 1 = 2, which
is exactly the name still held by the surviving entry, so the registry
ends with two live entries carrying the same id and the embedded
counter repeats 2 instead of increasing. -/
theorem addLight_id_collision :
    (addLight (removeLight (addLight (addLight lightInit "Point") "Point")
      (lightName "Point" 1)) "Point").lightSources.map LightSource.name
    = [lightName "Point" 2, lightName "Point" 2] := by
  decide

/-- C3 counterexample: the clock does not wrap modulo 24. Starting at
hour 23.99 a single frame at speed 3 computes 23.99 + 0.03 = 24.02;
wrapping modulo 24 would give hour 0.02 = 1/50, but the code resets the
hour to exactly 0, discarding the overshoot. -/
theorem clock_reset_not_modulo :
    (animateClock ⟨2399/100, 3, true⟩).time = 0
    ∧ (2399/100 : ℚ) + 3 * (1/100) - 24 = 1/50
    ∧ ((1:ℚ)/50) ≠ 0 := by
  refine ⟨?_, by norm_num, by norm_num⟩
  norm_num [animateClock]

/-- C3 (amended): for every starting hour in [0,24) and every sequence
of clock-advance steps, each at an arbitrarily chosen speed, the hour
stays in [0,24); crossing 24 resets the hour to exactly 0 rather than
wrapping modulo 24. -/
theorem clock_range_invariant (speeds : List ℚ) (s : ClockState)
    (h0 : 0 ≤ s.time) (h1 : s.time < 24) :
    0 ≤ (runClock speeds s).time ∧ (runClock speeds s).time < 24 := by
  induction speeds generalizing s with
  | nil => exact ⟨h0, h1⟩
  | cons sp rest ih =>
      have step := animateClock_range { s with timeSpeed := sp } h0 h1
      simpa [runClock] using ih (animateClock { s with timeSpeed := sp }) step.1 step.2

/-- Witness for C3: the invariant applied to a concrete run, plus the
worked example of the spec, which the code does satisfy: 23.5 advanced
by a total of 1.0 hour over 100 frames at speed 1 yields 0.5. -/
theorem clock_range_invariant_witness :
    (0 ≤ (runClock (List.replicate 100 1) ⟨47/2, 1, true⟩).time
      ∧ (runClock (List.replicate 100 1) ⟨47/2, 1, true⟩).time < 24)
    ∧ (runClock (List.replicate 100 1) ⟨47/2, 1, true⟩).time = 1/2 :=
  ⟨clock_range_invariant (List.replicate 100 1) ⟨47/2, 1, true⟩ (by norm_num) (by norm_num),
   clock_example_half⟩

/-- C7 counterexample: a tick whose elapsed deltaTime is 0 still
advances the hour by 0.01, because the frame callback never reads the
elapsed time; the claim that a zero deltaTime leaves the hour unchanged
fails. -/
theorem animateFrame_ignores_delta :
    (animateFrame 0 ⟨0, 1, true⟩).time = 1/100 ∧ ((1:ℚ)/100) ≠ 0 := by
  constructor
  · norm_num [animateFrame, animateClock]
  · norm_num

/-- C7 (amended): the per-tick clock advance equals
speedMultiplier * 0.01 regardless of the frame deltaTime — the step is
literally the same function for any two elapsed times; when the speed
multiplier is zero (or negative) no advance occurs; when it is positive
the new hour is the sum wrapped to 0 on reaching 24. -/
theorem clock_advance_per_tick (dt dt2 : ℚ) (s : ClockState) :
    animateFrame dt s = animateFrame dt2 s
    ∧ (s.timeSpeed ≤ 0 → animateFrame dt s = s)
    ∧ (0 < s.timeSpeed → (animateFrame dt s).time =
        if 24 ≤ s.time + s.timeSpeed * (1 / 100) then 0
        else s.time + s.timeSpeed * (1 / 100)) := by
  refine ⟨rfl, fun h => ?_, fun h => ?_⟩
  · simp [animateFrame, animateClock, not_lt.mpr h]
  · simp [animateFrame, animateClock, h]

/-- Witness for C7 at deltaTime 0 versus 5, hour 3, speed 2. -/
theorem clock_advance_per_tick_witness :
    animateFrame 0 ⟨3, 2, true⟩ = animateFrame 5 ⟨3, 2, true⟩
    ∧ ((⟨3, 2, true⟩ : ClockState).timeSpeed ≤ 0 →
        animateFrame 0 ⟨3, 2, true⟩ = ⟨3, 2, true⟩)
    ∧ (0 < (⟨3, 2, true⟩ : ClockState).timeSpeed →
        (animateFrame 0 ⟨3, 2, true⟩).time =
        if 24 ≤ (⟨3, 2, true⟩ : ClockState).time
            + (⟨3, 2, true⟩ : ClockState).timeSpeed * (1 / 100) then 0
        else (⟨3, 2, true⟩ : ClockState).time
            + (⟨3, 2, true⟩ : ClockState).timeSpeed * (1 / 100)) :=
  clock_advance_per_tick 0 5 ⟨3, 2, true⟩

/-- C9: the Play/Pause control overwrites the speed multiplier. For
every clock state, toggling playing off sets timeSpeed to 0 (and the
next frame then changes nothing), and toggling playing on sets
timeSpeed to exactly 1, discarding whatever speed the user had chosen;
with the speed forced positive, the next frame does advance the hour. -/
theorem setPlay_overwrites_speed (s : ClockState) :
    (setPlay s false).timeSpeed = 0
    ∧ (setPlay s true).timeSpeed = 1
    ∧ animateClock (setPlay s false) = setPlay s false
    ∧ (animateClock (setPlay s true)).time ≠ s.time := by
  refine ⟨rfl, rfl, ?_, ?_⟩
  · simp [animateClock, setPlay]
  · have ht : (animateClock (setPlay s true)).time =
        if 24 ≤ s.time + 1 * (1 / 100) then (0:ℚ) else s.time + 1 * (1 / 100) := rfl
    rw [ht]
    split_ifs with hc
    · intro h
      rw [← h] at hc
      linarith
    · intro h
      nlinarith

/-- Witness for C9 at a state whose user-chosen speed is 7: toggling
play discards the 7. -/
theorem setPlay_overwrites_speed_witness :
    (setPlay ⟨5, 7, true⟩ false).timeSpeed = 0
    ∧ (setPlay ⟨5, 7, true⟩ true).timeSpeed = 1
    ∧ animateClock (setPlay ⟨5, 7, true⟩ false) = setPlay ⟨5, 7, true⟩ false
    ∧ (animateClock (setPlay ⟨5, 7, true⟩ true)).time ≠ (⟨5, 7, true⟩ : ClockState).time :=
  setPlay_overwrites_speed ⟨5, 7, true⟩

/-- C4 counterexample: at night the intensity is not a function of the
circular hour-distance from midnight. Hours 23 and 1 are both one hour
from midnight on the 24-hour circle, yet the code computes
distanceFromMidnight = |hour - 0| on the raw hour, giving intensity 0
at hour 23 and 5/6 at hour 1. -/
theorem sunIntensity_night_asymmetric :
    sunIntensity 23 = 0 ∧ sunIntensity 1 = 5/6 ∧ sunIntensity 23 ≠ sunIntensity 1 := by
  norm_num [sunIntensity, isDayAt]

/-- C4 (amended): for every hour in [0,24) the directional intensity
lies in [0,5] and peaks at solar noon; during day hours it equals
5 - (|hour-12|/6)*4, decaying linearly with the distance from noon;
during night hours it equals max(0, 1 - hour/6), a floored linear decay
in the raw hour value rather than in the circular distance from
midnight. -/
theorem sunIntensity_bounds (h : ℚ) (h0 : 0 ≤ h) (h24 : h < 24) :
    0 ≤ sunIntensity h ∧ sunIntensity h ≤ 5
    ∧ sunIntensity h ≤ sunIntensity 12
    ∧ (isDayAt h → sunIntensity h = 5 - (|h - 12| / 6) * 4)
    ∧ (¬ isDayAt h → sunIntensity h = max 0 (1 - h / 6)) := by
  have h12 : sunIntensity 12 = 5 := by norm_num [sunIntensity, isDayAt]
  rw [h12]
  unfold sunIntensity
  split_ifs with hd
  · obtain ⟨hd1, hd2⟩ := hd
    have habs : |h - 12| ≤ 6 := abs_le.mpr ⟨by linarith, by linarith⟩
    have habs0 : 0 ≤ |h - 12| := abs_nonneg _
    have hx : (0:ℚ) ≤ 5 - (|h - 12| / 6) * 4 := by linarith
    rw [max_eq_right hx]
    exact ⟨hx, by linarith, by linarith, fun _ => rfl, fun hc => absurd ⟨hd1, hd2⟩ hc⟩
  · have hz : |h - 0| = h := by rw [sub_zero, abs_of_nonneg h0]
    rw [hz]
    refine ⟨le_max_left _ _, ?_, ?_, fun hc => absurd hc hd, fun _ => rfl⟩
    · exact max_le (by norm_num) (by linarith)
    · exact max_le (by norm_num) (by linarith)

/-- Witness for C4 at hour 23: intensity 0, inside [0,5]. -/
theorem sunIntensity_bounds_witness :
    (0:ℚ) ≤ 23 ∧ (23:ℚ) < 24
    ∧ (0 ≤ sunIntensity 23 ∧ sunIntensity 23 ≤ 5
        ∧ sunIntensity 23 ≤ sunIntensity 12
        ∧ (isDayAt 23 → sunIntensity 23 = 5 - (|(23:ℚ) - 12| / 6) * 4)
        ∧ (¬ isDayAt 23 → sunIntensity 23 = max 0 (1 - 23 / 6))) :=
  ⟨by norm_num, by norm_num, sunIntensity_bounds 23 (by norm_num) (by norm_num)⟩

/-- C5 counterexample: the sky colour is discontinuous at the dusk
boundary hour 18. At hour 17.999 the day branch gives lightness 0.7; at
hour 18.001 the night branch restarts from 0.05, giving 2001/40000;
the jump 25999/40000 (about 0.65) far exceeds 13/20000, the largest
possible interpolated change over the 0.002-hour gap (the steepest ramp,
sunrise, moves lightness 0.65 per 2 hours). -/
theorem skyColor_dusk_jump :
    (skyHSL (17999/1000)).lightness = 7/10
    ∧ (skyHSL (18001/1000)).lightness = 2001/40000
    ∧ (skyHSL (17999/1000)).lightness - (skyHSL (18001/1000)).lightness = 25999/40000
    ∧ (13/20000 : ℚ) < 25999/40000 := by
  norm_num [skyHSL, isDayAt, min_def, max_def]

/-- C5 (amended): across the dawn boundary hour 6 the sky colour and the
star opacity do vary continuously: for every positive epsilon below 2,
the lightness difference between hours 6-epsilon and 6+epsilon is
exactly (13/40)*epsilon and the star-opacity difference is exactly
(3/5)*epsilon, both bounded by the interpolation slope times the
2*epsilon gap; the dusk boundary hour 18, by contrast, is the
discontinuity shown in the counterexample. -/
theorem dawn_continuity (ε : ℚ) (h1 : 0 < ε) (h2 : ε < 2) :
    (skyHSL (6 + ε)).lightness - (skyHSL (6 - ε)).lightness = (13/40) * ε
    ∧ starOpacity (6 - ε) - starOpacity (6 + ε) = (3/5) * ε
    ∧ (13/40 : ℚ) * ε ≤ (13/20) * ((6 + ε) - (6 - ε))
    ∧ (3/5 : ℚ) * ε ≤ (6/5) * ((6 + ε) - (6 - ε)) := by
  have hday : isDayAt (6 + ε) := ⟨by linarith, by linarith⟩
  have hnd : ¬ isDayAt (6 - ε) := by
    intro hc
    have := hc.1
    linarith
  have hn18 : ¬ ((18:ℚ) ≤ 6 - ε ∧ (6:ℚ) - ε < 20) := by
    intro hc
    have := hc.1
    linarith
  have hsr : (4:ℚ) ≤ 6 - ε ∧ (6:ℚ) - ε < 6 := ⟨by linarith, by linarith⟩
  have e1 : (skyHSL (6 + ε)).lightness = 7/10 := by
    unfold skyHSL
    rw [if_pos hday]
  have e2 : (skyHSL (6 - ε)).lightness = 7/10 - (13/40) * ε := by
    unfold skyHSL
    rw [if_neg hnd, if_pos hsr]
    simp only
    ring
  have e3 : starOpacity (6 - ε) = (3/5) * ε := by
    unfold starOpacity starOpacityFrac
    rw [if_neg hnd, if_neg hn18, if_pos hsr]
    ring
  have e4 : starOpacity (6 + ε) = 0 := by
    unfold starOpacity starOpacityFrac
    rw [if_pos hday]
    ring
  rw [e1, e2, e3, e4]
  refine ⟨by ring, by ring, by linarith, by linarith⟩

/-- Witness for C5 at epsilon 1/1000, reproducing the comparison of
hours 5.999 and 6.001 from the spec. -/
theorem dawn_continuity_witness :
    (0:ℚ) < 1/1000 ∧ (1/1000:ℚ) < 2
    ∧ ((skyHSL (6 + 1/1000)).lightness - (skyHSL (6 - 1/1000)).lightness
        = (13/40) * (1/1000)
      ∧ starOpacity (6 - 1/1000) - starOpacity (6 + 1/1000) = (3/5) * (1/1000)
      ∧ (13/40 : ℚ) * (1/1000) ≤ (13/20) * ((6 + 1/1000) - (6 - 1/1000))
      ∧ (3/5 : ℚ) * (1/1000) ≤ (6/5) * ((6 + 1/1000) - (6 - 1/1000))) :=
  ⟨by norm_num, by norm_num, dawn_continuity (1/1000) (by norm_num) (by norm_num)⟩

/-- C8 counterexample: at hour 0, full night, the opacity fraction is 1
and the value written to the star material is 1 * 1.2 = 6/5, which
exceeds 1, refuting the claim that the produced star opacity lies in
[0,1]. -/
theorem starOpacity_exceeds_one :
    starOpacity 0 = 6/5 ∧ ¬ (starOpacity 0 ≤ 1) := by
  norm_num [starOpacity, starOpacityFrac, isDayAt]

/-- C8 (amended): for every hour in [0,24) the opacity fraction lies in
[0,1] (0 during day, the dusk and dawn ramps in between, 1 at full
night), and the value actually produced for the star material is that
fraction scaled by 1.2, hence inside [0, 6/5] and equal to 0 throughout
day hours. -/
theorem starOpacity_range (h : ℚ) (h0 : 0 ≤ h) (h24 : h < 24) :
    0 ≤ starOpacityFrac h ∧ starOpacityFrac h ≤ 1
    ∧ starOpacity h = starOpacityFrac h * (12/10)
    ∧ 0 ≤ starOpacity h ∧ starOpacity h ≤ 6/5
    ∧ (isDayAt h → starOpacity h = 0) := by
  have hfrac : 0 ≤ starOpacityFrac h ∧ starOpacityFrac h ≤ 1 := by
    unfold starOpacityFrac
    split_ifs with hd h18 h4
    · norm_num
    · obtain ⟨a, b⟩ := h18
      exact ⟨by linarith, by linarith⟩
    · obtain ⟨a, b⟩ := h4
      exact ⟨by linarith, by linarith⟩
    · norm_num
  refine ⟨hfrac.1, hfrac.2, rfl, ?_, ?_, ?_⟩
  · unfold starOpacity
    nlinarith [hfrac.1]
  · unfold starOpacity
    nlinarith [hfrac.2]
  · intro hd
    unfold starOpacity starOpacityFrac
    rw [if_pos hd]
    ring

/-- Witness for C8 at hour 19, the middle of the dusk ramp. -/
theorem starOpacity_range_witness :
    (0:ℚ) ≤ 19 ∧ (19:ℚ) < 24
    ∧ (0 ≤ starOpacityFrac 19 ∧ starOpacityFrac 19 ≤ 1
        ∧ starOpacity 19 = starOpacityFrac 19 * (12/10)
        ∧ 0 ≤ starOpacity 19 ∧ starOpacity 19 ≤ 6/5
        ∧ (isDayAt 19 → starOpacity 19 = 0)) :=
  ⟨by norm_num, by norm_num, starOpacity_range 19 (by norm_num) (by norm_num)⟩

/-- C6: the rain invariant. For any tick taken while rain is enabled,
with a nonnegative intensity, nonnegative fall velocities, every
particle starting with y in [0,100] and random draws in [0,1): every
updated particle has y in [0,100]; a particle whose decremented y would
be negative is reset to exactly y = 100 with fresh x and z inside
[-100,100]; and a particle whose decremented y stays nonnegative simply
keeps that decremented y. -/
theorem rain_y_invariant (intensity : ℚ) (rs : List (ℚ × ℚ)) (ps : List RainParticle)
    (hI : 0 ≤ intensity)
    (hv : ∀ p ∈ ps, 0 ≤ p.vel)
    (hy : ∀ p ∈ ps, 0 ≤ p.y ∧ p.y ≤ 100)
    (hr : ∀ r ∈ rs, (0 ≤ r.1 ∧ r.1 < 1) ∧ (0 ≤ r.2 ∧ r.2 < 1)) :
    (∀ q ∈ updateRain true intensity rs ps, 0 ≤ q.y ∧ q.y ≤ 100)
    ∧ (∀ pr ∈ ps.zip rs,
        (pr.1.y - pr.1.vel * intensity < 0 →
          (updateRainParticle intensity pr.2.1 pr.2.2 pr.1).y = 100
          ∧ -100 ≤ (updateRainParticle intensity pr.2.1 pr.2.2 pr.1).x
          ∧ (updateRainParticle intensity pr.2.1 pr.2.2 pr.1).x ≤ 100
          ∧ -100 ≤ (updateRainParticle intensity pr.2.1 pr.2.2 pr.1).z
          ∧ (updateRainParticle intensity pr.2.1 pr.2.2 pr.1).z ≤ 100)
        ∧ (0 ≤ pr.1.y - pr.1.vel * intensity →
            (updateRainParticle intensity pr.2.1 pr.2.2 pr.1).y
              = pr.1.y - pr.1.vel * intensity)) := by
  constructor
  · intro q hq
    simp only [updateRain, if_true, List.mem_map] at hq
    obtain ⟨pr, hpr, rfl⟩ := hq
    obtain ⟨hp1, hp2⟩ := List.of_mem_zip hpr
    have hv1 := hv pr.1 hp1
    have hy1 := hy pr.1 hp1
    simp only [updateRainParticle]
    split_ifs with hneg
    · norm_num
    · simp only
      constructor
      · linarith [not_lt.mp hneg]
      · nlinarith [mul_nonneg hv1 hI]
  · intro pr hpr
    obtain ⟨hp1, hp2⟩ := List.of_mem_zip hpr
    have hrr := hr pr.2 hp2
    constructor
    · intro hneg
      simp only [updateRainParticle]
      rw [if_pos hneg]
      refine ⟨rfl, ?_, ?_, ?_, ?_⟩ <;> simp only <;>
        linarith [hrr.1.1, hrr.1.2, hrr.2.1, hrr.2.2]
    · intro hpos
      simp only [updateRainParticle]
      rw [if_neg (not_lt.mpr hpos)]

/-- Witness for C6: one particle at y = 0 with velocity 2 and intensity
1 falls below 0 and is reset to 100 with fresh x = -100 and z = 0. -/
theorem rain_y_invariant_witness :
    (∀ q ∈ updateRain true 1 [((0:ℚ), (1:ℚ)/2)] [⟨5, 0, 7, 2⟩], 0 ≤ q.y ∧ q.y ≤ 100)
    ∧ (∀ pr ∈ ([⟨5, 0, 7, 2⟩] : List RainParticle).zip [((0:ℚ), (1:ℚ)/2)],
        (pr.1.y - pr.1.vel * 1 < 0 →
          (updateRainParticle 1 pr.2.1 pr.2.2 pr.1).y = 100
          ∧ -100 ≤ (updateRainParticle 1 pr.2.1 pr.2.2 pr.1).x
          ∧ (updateRainParticle 1 pr.2.1 pr.2.2 pr.1).x ≤ 100
          ∧ -100 ≤ (updateRainParticle 1 pr.2.1 pr.2.2 pr.1).z
          ∧ (updateRainParticle 1 pr.2.1 pr.2.2 pr.1).z ≤ 100)
        ∧ (0 ≤ pr.1.y - pr.1.vel * 1 →
            (updateRainParticle 1 pr.2.1 pr.2.2 pr.1).y
              = pr.1.y - pr.1.vel * 1)) :=
  rain_y_invariant 1 [((0:ℚ), (1:ℚ)/2)] [⟨5, 0, 7, 2⟩]
    (by norm_num)
    (by
      intro p hp
      simp only [List.mem_singleton] at hp
      subst hp
      norm_num)
    (by
      intro p hp
      simp only [List.mem_singleton] at hp
      subst hp
      norm_num)
    (by
      intro r hrr
      simp only [List.mem_singleton] at hrr
      subst hrr
      norm_num)

/-- C10: object removal is keyed by the captured mesh and folder
references, never by display name. In any state whose scene, objects
and folder lists are duplicate-free and contain the targeted mesh m and
folder f, deleteObject removes exactly m from the scene and the objects
array and exactly f from the GUI; every other mesh keeps its scene and
registry membership and every other folder survives, even if its
title string is identical to the deleted one, and each of the three
lists shrinks by exactly one entry. -/
theorem deleteObject_by_reference (s : ObjectsState) (m : Nat) (f : Nat × String)
    (hsc : s.scene.Nodup) (hob : s.objects.Nodup) (hfo : s.folders.Nodup)
    (hms : m ∈ s.scene) (hmo : m ∈ s.objects) (hf : f ∈ s.folders) :
    (m ∉ (deleteObject s m f).scene
      ∧ m ∉ (deleteObject s m f).objects
      ∧ f ∉ (deleteObject s m f).folders)
    ∧ (∀ m2, m2 ≠ m → ((m2 ∈ (deleteObject s m f).scene) ↔ m2 ∈ s.scene))
    ∧ (∀ m2, m2 ≠ m → ((m2 ∈ (deleteObject s m f).objects) ↔ m2 ∈ s.objects))
    ∧ (∀ g, g ≠ f → ((g ∈ (deleteObject s m f).folders) ↔ g ∈ s.folders))
    ∧ (deleteObject s m f).scene.length + 1 = s.scene.length
    ∧ (deleteObject s m f).objects.length + 1 = s.objects.length
    ∧ (deleteObject s m f).folders.length + 1 = s.folders.length := by
  have hobf : s.objects.filter (fun x => x != m) = s.objects.erase m :=
    (hob.erase_eq_filter m).symm
  simp only [deleteObject, hobf]
  refine ⟨⟨?_, ?_, ?_⟩, ?_, ?_, ?_, ?_, ?_, ?_⟩
  · intro hmem
    exact absurd ((hsc.mem_erase_iff).mp hmem).1 (by simp)
  · intro hmem
    exact absurd ((hob.mem_erase_iff).mp hmem).1 (by simp)
  · intro hmem
    exact absurd ((hfo.mem_erase_iff).mp hmem).1 (by simp)
  · intro m2 hne
    rw [hsc.mem_erase_iff]
    exact ⟨fun hh => hh.2, fun hh => ⟨hne, hh⟩⟩
  · intro m2 hne
    rw [hob.mem_erase_iff]
    exact ⟨fun hh => hh.2, fun hh => ⟨hne, hh⟩⟩
  · intro g hge
    rw [hfo.mem_erase_iff]
    exact ⟨fun hh => hh.2, fun hh => ⟨hge, hh⟩⟩
  · exact List.length_erase_add_one hms
  · exact List.length_erase_add_one hmo
  · rw [List.erase_eq_eraseP]
    exact List.length_eraseP_add_one hf (by simp)

/-- Witness for C10 on a registry of two objects whose GUI folders carry
the same display title: deleting mesh 2 with its folder 3 leaves the
other object, mesh 0 with folder 1, fully intact. -/
theorem deleteObject_by_reference_witness :
    (2 ∉ (deleteObject ⟨[0, 2], [0, 2],
        [(1, "Sphere 2 (edit or remove)"), (3, "Sphere 2 (edit or remove)")], 4⟩
        2 (3, "Sphere 2 (edit or remove)")).scene
      ∧ 2 ∉ (deleteObject ⟨[0, 2], [0, 2],
        [(1, "Sphere 2 (edit or remove)"), (3, "Sphere 2 (edit or remove)")], 4⟩
        2 (3, "Sphere 2 (edit or remove)")).objects
      ∧ ((3:Nat), "Sphere 2 (edit or remove)") ∉ (deleteObject ⟨[0, 2], [0, 2],
        [(1, "Sphere 2 (edit or remove)"), (3, "Sphere 2 (edit or remove)")], 4⟩
        2 (3, "Sphere 2 (edit or remove)")).folders)
    ∧ (∀ m2, m2 ≠ 2 → ((m2 ∈ (deleteObject ⟨[0, 2], [0, 2],
        [(1, "Sphere 2 (edit or remove)"), (3, "Sphere 2 (edit or remove)")], 4⟩
        2 (3, "Sphere 2 (edit or remove)")).scene) ↔ m2 ∈ [0, 2]))
    ∧ (∀ m2, m2 ≠ 2 → ((m2 ∈ (deleteObject ⟨[0, 2], [0, 2],
        [(1, "Sphere 2 (edit or remove)"), (3, "Sphere 2 (edit or remove)")], 4⟩
        2 (3, "Sphere 2 (edit or remove)")).objects) ↔ m2 ∈ [0, 2]))
    ∧ (∀ g, g ≠ ((3:Nat), "Sphere 2 (edit or remove)") →
        ((g ∈ (deleteObject ⟨[0, 2], [0, 2],
        [(1, "Sphere 2 (edit or remove)"), (3, "Sphere 2 (edit or remove)")], 4⟩
        2 (3, "Sphere 2 (edit or remove)")).folders)
          ↔ g ∈ [(1, "Sphere 2 (edit or remove)"), (3, "Sphere 2 (edit or remove)")]))
    ∧ (deleteObject ⟨[0, 2], [0, 2],
        [(1, "Sphere 2 (edit or remove)"), (3, "Sphere 2 (edit or remove)")], 4⟩
        2 (3, "Sphere 2 (edit or remove)")).scene.length + 1 = ([0, 2] : List Nat).length
    ∧ (deleteObject ⟨[0, 2], [0, 2],
        [(1, "Sphere 2 (edit or remove)"), (3, "Sphere 2 (edit or remove)")], 4⟩
        2 (3, "Sphere 2 (edit or remove)")).objects.length + 1 = ([0, 2] : List Nat).length
    ∧ (deleteObject ⟨[0, 2], [0, 2],
        [(1, "Sphere 2 (edit or remove)"), (3, "Sphere 2 (edit or remove)")], 4⟩
        2 (3, "Sphere 2 (edit or remove)")).folders.length + 1
        = [((1:Nat), "Sphere 2 (edit or remove)"),
           ((3:Nat), "Sphere 2 (edit or remove)")].length :=
  deleteObject_by_reference
    ⟨[0, 2], [0, 2],
      [(1, "Sphere 2 (edit or remove)"), (3, "Sphere 2 (edit or remove)")], 4⟩
    2 (3, "Sphere 2 (edit or remove)")
    (by decide) (by decide) (by decide) (by decide) (by decide) (by decide)
